import Mathlib

/-!
Verification of the event classes of `src/app/event.py` (settrade-bot).

The Python module defines four plain data classes — `MarketEvent`,
`SignalEvent`, `OrderEvent`, `FillEvent` — and a commission function
`FillEvent.calculate_ib_commision`.  We embed them shallowly:

* Python real arithmetic (float literals `1.3`, `0.013`, `0.008` and their
  products) is modelled with exact rationals `ℚ`;
* a Python constructor call is modelled at two levels: a typed
  `init` function building the record from the supplied arguments, and a
  `call` function over `Option`-wrapped arguments modelling Python's call
  protocol, where a missing required positional argument raises `TypeError`;
* a raised Python exception is an `Except.error` value of type `PyError`;
* `print` to stdout is modelled as the string the call writes: a method that
  prints is embedded as a function returning the post-state of the object
  together with the printed string.

Two defects of the source are relevant.  First, `FillEvent.__init__`'s
parameter list lacks the comma between `direction` and `fill_cost`; we embed
the evident intended signature (seven distinct parameters, `commission`
defaulting to `None`).  Second, `FillEvent.__init__` invokes
`self.calculate_ib_commission()` while the method defined on the class is
spelled `calculate_ib_commision`, so the attribute lookup fails: constructing
a `FillEvent` without an explicit commission raises `AttributeError`.  The
embedding keeps that behaviour.
-/

namespace Settrade

/-- Exceptions the embedded code can raise.  `typeError` models Python's
`TypeError` for a missing required positional argument, `attributeError m`
models `AttributeError` from a failed lookup of attribute `m`.
`validationError` models the `ValidationError` named by the specification;
nothing in `src/app/event.py` defines or raises it. -/
inductive PyError where
  | typeError
  | attributeError (missing : String)
  | validationError
  deriving DecidableEq, Repr

/-- Embeds `MarketEvent`: the constructor only sets `self.type = "MARKET"`. -/
structure MarketEvent where
  type : String
  deriving DecidableEq, Repr

/-- Embeds `MarketEvent.__init__`. -/
def MarketEvent.init : MarketEvent := ⟨"MARKET"⟩

/-- Embeds `SignalEvent`: fields as assigned by `SignalEvent.__init__`.
Per the docstrings, `strategy_id` is an integer identifier, `symbol` a ticker
string, `datetime` a timestamp (kept as a string), `signal_type` one of the
strings `LONG`/`SHORT`, and `strength` a real scaling factor. -/
structure SignalEvent where
  type : String
  strategy_id : Int
  symbol : String
  datetime : String
  signal_type : String
  strength : ℚ
  deriving DecidableEq, Repr

/-- Embeds `SignalEvent.__init__`. -/
def SignalEvent.init (strategy_id : Int) (symbol datetime signal_type : String)
    (strength : ℚ) : SignalEvent :=
  ⟨"SIGNAL", strategy_id, symbol, datetime, signal_type, strength⟩

/-- Embeds the call protocol of `SignalEvent(...)`: all five parameters are
required positional parameters, so a call missing any of them raises
`TypeError`; otherwise `__init__` runs (it cannot fail). -/
def SignalEvent.call (strategy_id : Option Int)
    (symbol datetime signal_type : Option String) (strength : Option ℚ) :
    Except PyError SignalEvent :=
  match strategy_id, symbol, datetime, signal_type, strength with
  | some a, some b, some c, some d, some e => .ok (SignalEvent.init a b c d e)
  | _, _, _, _, _ => .error .typeError

/-- Embeds `OrderEvent`: fields as assigned by `OrderEvent.__init__`.
`quantity` is an integer per the docstring; the constructor performs no
validation on it. -/
structure OrderEvent where
  type : String
  symbol : String
  order_type : String
  quantity : Int
  direction : String
  deriving DecidableEq, Repr

/-- Embeds `OrderEvent.__init__`: plain field assignment, no checks. -/
def OrderEvent.init (symbol order_type : String) (quantity : Int)
    (direction : String) : OrderEvent :=
  ⟨"ORDER", symbol, order_type, quantity, direction⟩

/-- Embeds the call protocol of `OrderEvent(...)`: four required positional
parameters; a call missing any raises `TypeError`, otherwise `__init__`
runs (it cannot fail, whatever the quantity). -/
def OrderEvent.call (symbol order_type : Option String) (quantity : Option Int)
    (direction : Option String) : Except PyError OrderEvent :=
  match symbol, order_type, quantity, direction with
  | some s, some t, some q, some d => .ok (OrderEvent.init s t q d)
  | _, _, _, _ => .error .typeError

/-- Embeds `OrderEvent.print_order`: the method reads the fields and prints
`"Order: Symbol={:}, Type={:}, Quantity={:}, Direction={:}".format(...)`.
The embedding returns the post-state of the object together with the printed
string; Python's `"{:}".format` of an `int` is its decimal rendering, which
matches `toString` on `Int`. -/
def OrderEvent.print_order (e : OrderEvent) : OrderEvent × String :=
  (e, "Order: Symbol=" ++ e.symbol ++ ", Type=" ++ e.order_type ++
      ", Quantity=" ++ toString e.quantity ++ ", Direction=" ++ e.direction)

/-- Embeds `FillEvent`: fields as assigned by `FillEvent.__init__` (with the
missing comma of the source's parameter list repaired to the evident seven
distinct parameters). -/
structure FillEvent where
  type : String
  timeindex : String
  symbol : String
  exchange : String
  quantity : Int
  direction : String
  fill_cost : ℚ
  commission : ℚ
  deriving DecidableEq, Repr

/-- Embeds `FillEvent.calculate_ib_commision` (note the source's spelling,
one `s` in the last syllable): the method reads only `self.quantity`, so it is
embedded as a function of the quantity.  The initial `full_cost = 1.3`
assignment of the source is dead — both branches overwrite it. -/
def FillEvent.calculate_ib_commision (quantity : Int) : ℚ :=
  if quantity ≤ 500 then max 1.3 (0.013 * (quantity : ℚ))
  else max 1.3 (0.008 * (quantity : ℚ))

/-- Embeds `FillEvent.__init__`.  When `commission` is `None` the source
executes `self.commission = self.calculate_ib_commission()`; no attribute of
that spelling exists on the class (the method is `calculate_ib_commision`),
so the lookup raises `AttributeError` and construction fails.  With an
explicit commission the value is stored unchanged and the commission
function is never consulted. -/
def FillEvent.init (timeindex symbol exchange : String) (quantity : Int)
    (direction : String) (fill_cost : ℚ) (commission : Option ℚ) :
    Except PyError FillEvent :=
  match commission with
  | none => .error (.attributeError "calculate_ib_commission")
  | some c =>
      .ok ⟨"FILL", timeindex, symbol, exchange, quantity, direction, fill_cost, c⟩

/-- Embeds the call protocol of `FillEvent(...)`: six required positional
parameters and the optional `commission` (defaulting to `None`, so an absent
`commission` argument and an explicit `None` behave identically). -/
def FillEvent.call (timeindex symbol exchange : Option String)
    (quantity : Option Int) (direction : Option String)
    (fill_cost : Option ℚ) (commission : Option ℚ) : Except PyError FillEvent :=
  match timeindex, symbol, exchange, quantity, direction, fill_cost with
  | some a, some b, some c, some d, some e, some f =>
      FillEvent.init a b c d e f commission
  | _, _, _, _, _, _ => .error .typeError

/-- Follows the spec's words (§4.2 of the specification), for comparison with
the source's `FillEvent.calculate_ib_commision`: the spec's
`CommissionPolicy.compute` "fails with `ValidationError` for negative
quantity" and otherwise applies the tiered fee table. -/
def CommissionPolicy.compute_specified (quantity : Int) : Except PyError ℚ :=
  if quantity < 0 then .error .validationError
  else .ok (if quantity ≤ 500 then max 1.3 (0.013 * (quantity : ℚ))
            else max 1.3 (0.008 * (quantity : ℚ)))

/-- Modelled from the spec: the repository has no EventQueue implementation
(`src/` holds only the event classes and a login script), so the queue of
§4.3 of the specification is modelled from its words: an ordered buffer with
`push(event)` appending and `pop()` returning the oldest event or an empty
indicator (the polling configuration). -/
structure EventQueue (α : Type) where
  items : List α
  deriving DecidableEq, Repr

/-- Modelled from the spec: a fresh, empty queue. -/
def EventQueue.empty {α : Type} : EventQueue α := ⟨[]⟩

/-- Modelled from the spec: `push(event)` appends at the back; it never
fails. -/
def EventQueue.push {α : Type} (q : EventQueue α) (e : α) : EventQueue α :=
  ⟨q.items ++ [e]⟩

/-- Modelled from the spec: `pop()` removes and returns the oldest event, or
returns the empty indicator (`none`) on an empty queue. -/
def EventQueue.pop {α : Type} (q : EventQueue α) : Option α × EventQueue α :=
  match q.items with
  | [] => (none, ⟨[]⟩)
  | x :: xs => (some x, ⟨xs⟩)

/-- Pushing a whole list of events, in order. -/
def EventQueue.pushAll {α : Type} (q : EventQueue α) (es : List α) : EventQueue α :=
  es.foldl EventQueue.push q

/-- Popping `n` times, collecting the events obtained, in order. -/
def EventQueue.popList {α : Type} : EventQueue α → Nat → List α × EventQueue α
  | q, 0 => ([], q)
  | q, n + 1 =>
      match q.pop with
      | (none, q') => ([], q')
      | (some x, q') =>
          let r := q'.popList n
          (x :: r.1, r.2)

/-! Helper lemmas. -/

/-- A negative quantity lands in the first branch of the commission function
and the tiered term is negative, so the 1.3 floor wins. -/
theorem calculate_ib_commision_neg (q : Int) (h : q < 0) :
    FillEvent.calculate_ib_commision q = 1.3 := by
  unfold FillEvent.calculate_ib_commision
  rw [if_pos (by omega : q ≤ 500)]
  have hq : (q : ℚ) < 0 := by exact_mod_cast h
  have : (0.013 : ℚ) * (q : ℚ) < 0 := mul_neg_of_pos_of_neg (by norm_num) hq
  rw [max_eq_left (by linarith)]

/-- Pushing a list appends it to the buffer. -/
theorem EventQueue.pushAll_items {α : Type} (q : EventQueue α) (es : List α) :
    (q.pushAll es).items = q.items ++ es := by
  induction es generalizing q with
  | nil => simp [EventQueue.pushAll]
  | cons x xs ih =>
      simp only [EventQueue.pushAll, List.foldl_cons] at *
      rw [ih]
      simp [EventQueue.push]

/-- Draining a queue of `n` events by `n` pops yields exactly its buffer. -/
theorem EventQueue.popList_drain {α : Type} (es : List α) :
    (EventQueue.mk es).popList es.length = (es, EventQueue.empty) := by
  induction es with
  | nil => rfl
  | cons x xs ih =>
      simp only [List.length_cons, EventQueue.popList, EventQueue.pop]
      rw [ih]

/-! Claim theorems. -/

/-- C1: for every non-negative integer quantity the commission computation
returns `max(1.30, 0.013*quantity)` when `quantity ≤ 500` and
`max(1.30, 0.008*quantity)` when `quantity > 500`; in particular
`compute(500) = 6.50`, `compute(0) = 1.30`, `compute(1000) = 8.00` and
`compute(100000) = 800.0`. -/
theorem C1_commission_tiers :
    (∀ q : Int, 0 ≤ q → q ≤ 500 →
      FillEvent.calculate_ib_commision q = max 1.30 (0.013 * (q : ℚ))) ∧
    (∀ q : Int, 0 ≤ q → 500 < q →
      FillEvent.calculate_ib_commision q = max 1.30 (0.008 * (q : ℚ))) ∧
    FillEvent.calculate_ib_commision 500 = 6.50 ∧
    FillEvent.calculate_ib_commision 0 = 1.30 ∧
    FillEvent.calculate_ib_commision 1000 = 8.00 ∧
    FillEvent.calculate_ib_commision 100000 = 800.0 := by
  refine ⟨fun q _ h2 => ?_, fun q _ h2 => ?_, ?_, ?_, ?_, ?_⟩
  · rw [FillEvent.calculate_ib_commision, if_pos h2]; norm_num
  · rw [FillEvent.calculate_ib_commision, if_neg (by omega)]; norm_num
  all_goals norm_num [FillEvent.calculate_ib_commision]

/-- Witness for C1 at the concrete quantities 300 (low tier) and 600 (high
tier). -/
theorem C1_commission_tiers_witness :
    FillEvent.calculate_ib_commision 300 = max 1.30 (0.013 * ((300 : Int) : ℚ)) ∧
    FillEvent.calculate_ib_commision 600 = max 1.30 (0.008 * ((600 : Int) : ℚ)) :=
  ⟨C1_commission_tiers.1 300 (by norm_num) (by norm_num),
   C1_commission_tiers.2.1 600 (by norm_num) (by norm_num)⟩

/-- C2 (code bug, evaluated at the failing input): constructing a `FillEvent`
with `commission=None` does not store the computed commission — the source
calls the misspelled `self.calculate_ib_commission()`, no attribute of that
spelling exists, and construction fails with `AttributeError`; with an
explicit commission `2.50`, exactly `2.50` is stored and the commission
function is never consulted. -/
theorem C2_commission_none_fails :
    FillEvent.init "T" "GOOG" "ARCA" 100 "BUY" 1500 none
      = .error (.attributeError "calculate_ib_commission") ∧
    (FillEvent.init "T" "GOOG" "ARCA" 100 "BUY" 1500 (some 2.50)).map
        FillEvent.commission = .ok 2.50 :=
  ⟨rfl, rfl⟩

/-- C3 counterexample: constructing an `OrderEvent` with `quantity = -1`
succeeds (no `ValidationError`), storing `-1`; and a construction with a
missing required field fails with `TypeError`, which is not
`ValidationError`. -/
theorem C3_counterexample :
    OrderEvent.call (some "GOOG") (some "MKT") (some (-1)) (some "BUY")
      = .ok (OrderEvent.init "GOOG" "MKT" (-1) "BUY") ∧
    (OrderEvent.init "GOOG" "MKT" (-1) "BUY").quantity = -1 ∧
    OrderEvent.call none (some "MKT") (some 100) (some "BUY")
      = .error .typeError ∧
    (Except.error PyError.typeError : Except PyError OrderEvent)
      ≠ .error .validationError := by
  refine ⟨rfl, rfl, rfl, fun h => ?_⟩
  injection h with h2
  exact PyError.noConfusion h2

/-- C3 amended: constructing a `SignalEvent`, `OrderEvent` or `FillEvent`
with a required field missing fails with `TypeError` (not
`ValidationError`), and constructing an `OrderEvent` with a negative
quantity succeeds, storing the negative quantity — so constructed
`OrderEvent`s may have `quantity < 0`. -/
theorem C3_missing_field_type_error :
    (∀ s t q d, s = none ∨ t = none ∨ q = none ∨ d = none →
      OrderEvent.call s t q d = .error .typeError) ∧
    (∀ a b c d e,
      a = none ∨ b = none ∨ c = none ∨ d = none ∨ e = none →
      SignalEvent.call a b c d e = .error .typeError) ∧
    (∀ a b c d e f g,
      a = none ∨ b = none ∨ c = none ∨ d = none ∨ e = none ∨ f = none →
      FillEvent.call a b c d e f g = .error .typeError) ∧
    (∀ s t (q : Int) d, OrderEvent.call (some s) (some t) (some q) (some d)
      = .ok (OrderEvent.init s t q d)) := by
  refine ⟨fun s t q d h => ?_, fun a b c d e h => ?_,
          fun a b c d e f g h => ?_, fun s t q d => rfl⟩
  · cases s <;> cases t <;> cases q <;> cases d <;> first | rfl | simp_all
  · cases a <;> cases b <;> cases c <;> cases d <;> cases e <;>
      first | rfl | simp_all
  · cases a <;> cases b <;> cases c <;> cases d <;> cases e <;> cases f <;>
      first | rfl | simp_all

/-- Witness for C3's amended theorem: each constructor with one field
missing raises `TypeError`, and a full `OrderEvent` call succeeds. -/
theorem C3_missing_field_type_error_witness :
    OrderEvent.call none (some "MKT") (some 100) (some "BUY")
      = .error .typeError ∧
    SignalEvent.call (some 1) (some "GOOG") (some "T") none (some 1)
      = .error .typeError ∧
    FillEvent.call (some "T") (some "GOOG") (some "ARCA") (some 100)
        (some "BUY") none (some 2.5) = .error .typeError ∧
    OrderEvent.call (some "GOOG") (some "MKT") (some 100) (some "BUY")
      = .ok (OrderEvent.init "GOOG" "MKT" 100 "BUY") :=
  ⟨C3_missing_field_type_error.1 none (some "MKT") (some 100) (some "BUY")
      (Or.inl rfl),
   C3_missing_field_type_error.2.1 (some 1) (some "GOOG") (some "T") none
      (some 1) (Or.inr (Or.inr (Or.inr (Or.inl rfl)))),
   C3_missing_field_type_error.2.2.1 (some "T") (some "GOOG") (some "ARCA")
      (some 100) (some "BUY") none (some 2.5)
      (Or.inr (Or.inr (Or.inr (Or.inr (Or.inr rfl))))),
   C3_missing_field_type_error.2.2.2 "GOOG" "MKT" 100 "BUY"⟩

/-- C4 counterexample: at quantity `-1` the source's commission computation
returns the value `1.3` — it does not fail — while the specified
`CommissionPolicy.compute` fails with `ValidationError` there. -/
theorem C4_counterexample :
    FillEvent.calculate_ib_commision (-1) = 1.3 ∧
    CommissionPolicy.compute_specified (-1) = .error .validationError ∧
    (Except.ok (FillEvent.calculate_ib_commision (-1)) : Except PyError ℚ)
      ≠ CommissionPolicy.compute_specified (-1) := by
  refine ⟨calculate_ib_commision_neg (-1) (by norm_num), rfl, ?_⟩
  rw [CommissionPolicy.compute_specified]
  simp

/-- C4 amended: the commission computation never fails: it is a pure total
function of the quantity, and for every negative quantity it returns
exactly `1.3` (the minimum fee) instead of raising `ValidationError`; for
non-negative quantities it agrees with the specified tier table. -/
theorem C4_total_no_validation_error :
    (∀ q : Int, q < 0 → FillEvent.calculate_ib_commision q = 1.3) ∧
    (∀ q : Int, 0 ≤ q → CommissionPolicy.compute_specified q
      = .ok (FillEvent.calculate_ib_commision q)) := by
  refine ⟨fun q h => calculate_ib_commision_neg q h, fun q h => ?_⟩
  rw [CommissionPolicy.compute_specified, if_neg (by omega),
    FillEvent.calculate_ib_commision]

/-- Witness for C4's amended theorem at quantities `-7` and `42`. -/
theorem C4_total_no_validation_error_witness :
    FillEvent.calculate_ib_commision (-7) = 1.3 ∧
    CommissionPolicy.compute_specified 42
      = .ok (FillEvent.calculate_ib_commision 42) :=
  ⟨C4_total_no_validation_error.1 (-7) (by norm_num),
   C4_total_no_validation_error.2 42 (by norm_num)⟩

/-- C5: for every constructed `OrderEvent`, the diagnostic rendering
produces exactly
`"Order: Symbol=<symbol>, Type=<order_type>, Quantity=<quantity>, Direction=<direction>"`
with the stored fields substituted, and besides producing that string it
leaves the event as it was (stdout output is modelled as the returned
string). -/
theorem C5_print_order_format :
    ∀ e : OrderEvent, e.print_order
      = (e, "Order: Symbol=" ++ e.symbol ++ ", Type=" ++ e.order_type ++
            ", Quantity=" ++ toString e.quantity ++ ", Direction=" ++
            e.direction) :=
  fun _ => rfl

/-- C6: every constructed event carries its kind discriminant in `type`, set
at construction — `"MARKET"`, `"SIGNAL"`, `"ORDER"`, `"FILL"` respectively —
each a member of the four-element kind set, and the only operation defined on
a constructed event (`print_order` on `OrderEvent`) leaves `type`
unchanged. -/
theorem C6_kind_discriminant :
    MarketEvent.init.type = "MARKET" ∧
    (∀ a b c d e, (SignalEvent.init a b c d e).type = "SIGNAL") ∧
    (∀ s t q d, (OrderEvent.init s t q d).type = "ORDER") ∧
    (∀ a b c q d f cm, (FillEvent.init a b c q d f (some cm)).map
        FillEvent.type = .ok "FILL") ∧
    (∀ e : OrderEvent, e.print_order.1.type = e.type) ∧
    MarketEvent.init.type ∈ ["MARKET", "SIGNAL", "ORDER", "FILL"] ∧
    (∀ a b c d e,
      (SignalEvent.init a b c d e).type ∈ ["MARKET", "SIGNAL", "ORDER", "FILL"]) ∧
    (∀ s t q d,
      (OrderEvent.init s t q d).type ∈ ["MARKET", "SIGNAL", "ORDER", "FILL"]) := by
  exact ⟨rfl, fun _ _ _ _ _ => rfl, fun _ _ _ _ => rfl,
         fun _ _ _ _ _ _ _ => rfl, fun _ => rfl, by simp [MarketEvent.init],
         fun _ _ _ _ _ => by simp [SignalEvent.init],
         fun _ _ _ _ => by simp [OrderEvent.init]⟩

/-- C7 (queue modelled from the spec): the EventQueue is FIFO — pushing
`e1, e2, e3` in that order and popping three times yields `e1, e2, e3`, and
in general pushing any list of events onto the empty queue and popping them
all returns exactly that list in insertion order. -/
theorem C7_event_queue_fifo :
    (∀ (α : Type) (e1 e2 e3 : α),
      (((EventQueue.empty.push e1).push e2).push e3).popList 3
        = ([e1, e2, e3], EventQueue.empty)) ∧
    (∀ (α : Type) (es : List α),
      (EventQueue.empty.pushAll es).popList es.length = (es, EventQueue.empty)) := by
  constructor
  · intro α e1 e2 e3; rfl
  · intro α es
    have h : (EventQueue.empty.pushAll es : EventQueue α) = ⟨es⟩ := by
      have := EventQueue.pushAll_items (EventQueue.empty : EventQueue α) es
      cases hq : EventQueue.empty.pushAll es
      simp only [hq] at this
      simpa [EventQueue.empty] using this
    rw [h, EventQueue.popList_drain]

/-- C8: for every integer quantity — zero and negative ones included — the
commission computed by `calculate_ib_commision` is at least `1.3`, and a
negative quantity yields exactly `1.3` rather than an error (the function is
total). -/
theorem C8_commission_floor :
    (∀ q : Int, 1.3 ≤ FillEvent.calculate_ib_commision q) ∧
    (∀ q : Int, q < 0 → FillEvent.calculate_ib_commision q = 1.3) := by
  refine ⟨fun q => ?_, fun q h => calculate_ib_commision_neg q h⟩
  rw [FillEvent.calculate_ib_commision]
  split <;> exact le_max_left _ _

/-- Witness for C8 at quantities `250` and `-3`. -/
theorem C8_commission_floor_witness :
    (1.3 : ℚ) ≤ FillEvent.calculate_ib_commision 250 ∧
    FillEvent.calculate_ib_commision (-3) = 1.3 :=
  ⟨C8_commission_floor.1 250, C8_commission_floor.2 (-3) (by norm_num)⟩

/-- C9: the commission computation is not monotone in the quantity: at the
tier boundary, quantity `500` is charged `6.5` while the larger quantity
`501` is charged only `4.008`. -/
theorem C9_commission_not_monotone :
    (500 : Int) < 501 ∧
    FillEvent.calculate_ib_commision 500 = 6.5 ∧
    FillEvent.calculate_ib_commision 501 = 4.008 ∧
    FillEvent.calculate_ib_commision 501
      < FillEvent.calculate_ib_commision 500 := by
  refine ⟨by norm_num, ?_, ?_, ?_⟩ <;>
    norm_num [FillEvent.calculate_ib_commision]

/-- C10: the diagnostic rendering leaves the `OrderEvent` unchanged: after
`print_order`, the post-state equals the pre-state, so `type`, `symbol`,
`order_type`, `quantity` and `direction` all keep their values. -/
theorem C10_print_order_frame :
    ∀ e : OrderEvent,
      e.print_order.1 = e ∧
      e.print_order.1.type = e.type ∧
      e.print_order.1.symbol = e.symbol ∧
      e.print_order.1.order_type = e.order_type ∧
      e.print_order.1.quantity = e.quantity ∧
      e.print_order.1.direction = e.direction :=
  fun _ => ⟨rfl, rfl, rfl, rfl, rfl, rfl⟩

end Settrade
